import Mathlib

/-!
Shallow embedding of the rotki Illuvium transaction-log decoding core
(src/rotkehlchen/chain/ethereum/modules/illuvium/decoder.py) together with
the surrounding orchestration the spec describes, and proofs of the claimed
properties.

Machine quantities (addresses, topics, raw amounts) are modelled as `Nat`;
exact decimal amounts (python `FVal`, backed by arbitrary-precision decimals)
are modelled as `ℚ`.  Byte strings are `List Nat` with every entry a byte.
-/

set_option autoImplicit false

/-- Event-log record of a transaction receipt
(rotkehlchen.chain.evm.structures.EvmTxReceiptLog): emitting address, ordered
32-byte topics, opaque byte payload, position in the receipt, removed flag. -/
structure EvmTxReceiptLog where
  log_index : Nat
  data : List Nat
  address : Nat
  removed : Bool
  topics : List Nat
  deriving DecidableEq, Repr

/-- Transaction record (rotkehlchen.types.EvmTransaction); fields the decoding
core reads, all read-only. -/
structure EvmTransaction where
  tx_hash : Nat
  timestamp : Nat
  block_number : Nat
  from_address : Nat
  to_address : Nat
  value : Nat
  gas : Nat
  gas_price : Nat
  gas_used : Nat
  input_data : List Nat
  nonce : Nat
  deriving DecidableEq, Repr

/-- Receipt record (rotkehlchen.chain.evm.structures.EvmTxReceipt). -/
structure EvmTxReceipt where
  tx_hash : Nat
  status : Bool
  type : Nat
  logs : List EvmTxReceiptLog
  deriving DecidableEq, Repr

/-- Coarse classification of a decoded event
(rotkehlchen.accounting.structures.types.HistoryEventType, the constructors
this core uses). -/
inductive HistoryEventType where
  | SPEND
  | RECEIVE
  | STAKING
  | MIGRATE
  deriving DecidableEq, Repr

/-- Fine classification of a decoded event
(rotkehlchen.accounting.structures.types.HistoryEventSubType, the
constructors this core uses; NONE is the generic default). -/
inductive HistoryEventSubType where
  | NONE
  | FEE
  | REWARD
  | DEPOSIT_ASSET
  | REMOVE_ASSET
  | RECEIVE
  deriving DecidableEq, Repr

/-- Chain tag of an event (rotkehlchen.types.Location; only BLOCKCHAIN is
used by this core). -/
inductive Location where
  | BLOCKCHAIN
  deriving DecidableEq, Repr

/-- Assets this core touches (rotkehlchen.constants.assets).  ETH is the
native gas asset; the others are the ERC-20 tokens of the Illuvium module. -/
inductive Asset where
  | ETH
  | ILV
  | SILV_V1
  | SILV_V2
  | SLP_ILV_ETH
  deriving DecidableEq, Repr

/-- Display symbol of an asset (Asset.symbol_or_name in the source, values as
the test fixtures show them). -/
def Asset.symbol_or_name : Asset → String
  | .ETH => "ETH"
  | .ILV => "ILV"
  | .SILV_V1 => "sILV"
  | .SILV_V2 => "sILV2"
  | .SLP_ILV_ETH => "SLP"

/-- Token decimal precision used for amount normalization; every token this
module touches has 18 decimals, as do ETH amounts. -/
def Asset.decimals : Asset → Nat
  | _ => 18

/-- Balance attached to an event
(rotkehlchen.accounting.structures.balance.Balance): exact decimal amount and
usd value (always zero inside this decoding core). -/
structure Balance where
  amount : ℚ
  usd_value : ℚ
  deriving DecidableEq, Repr

/-- Value held in an event's counterparty field: either a plain address (as
the default transfer decoder leaves it) or a protocol tag string. -/
inductive CounterpartyVal where
  | addr (a : Nat)
  | tag (s : String)
  deriving DecidableEq, Repr

/-- Human-readable notes text of an event, modelled structurally: one
constructor per f-string shape the source produces, carrying exactly the
interpolated values (amounts as the exact decimal they are printed from). -/
inductive Notes where
  | burnedGas (amount : ℚ)
  | transferNote
  | stakeNote (amount : ℚ) (assetSym : String) (poolName : String)
  | unstakeNote (amount : ℚ) (assetSym : String) (poolName : String)
  | claimNote (amount : ℚ) (assetSym : String)
  deriving DecidableEq, Repr

/-- Audit metadata dict of an event, modelled structurally: one constructor
per dict shape the source builds (staked_amount/asset, unstaked_amount/asset,
claimed_amount/asset), amounts as the exact decimal their string is printed
from. -/
inductive ExtraData where
  | staked (amount : ℚ) (assetSym : String)
  | unstaked (amount : ℚ) (assetSym : String)
  | claimed (amount : ℚ) (assetSym : String)
  deriving DecidableEq, Repr

/-- Decoded accounting event
(rotkehlchen.accounting.structures.base.HistoryBaseEntry), the mutable unit
the core produces and may revise in place. -/
structure HistoryBaseEntry where
  event_identifier : Nat
  sequence_index : Nat
  timestamp : Nat
  location : Location
  location_label : Option Nat
  asset : Asset
  balance : Balance
  event_type : HistoryEventType
  event_subtype : HistoryEventSubType
  counterparty : Option CounterpartyVal
  notes : Notes
  extra_data : Option ExtraData
  deriving DecidableEq, Repr

/-- Deferred decoding instruction
(rotkehlchen.chain.evm.decoding.structures.ActionItem).  The Illuvium module
never constructs one; the type is kept inhabited so that returning the empty
list is a fact of the code, not of the type. -/
structure ActionItem where
  payload : Nat
  deriving DecidableEq, Repr

/-- Big-endian byte-string to unsigned integer
(rotkehlchen.utils.misc.hex_or_bytes_to_int; python int.from_bytes big). -/
def hex_or_bytes_to_int (bs : List Nat) : Nat :=
  bs.foldl (fun a b => a * 256 + b) 0

/-- Last 20 bytes of a 32-byte topic as an address
(rotkehlchen.utils.misc.hex_or_bytes_to_address). -/
def hex_or_bytes_to_address (topic : Nat) : Nat :=
  topic % 2 ^ 160

/-- Seconds to milliseconds (rotkehlchen.utils.misc.ts_sec_to_ms). -/
def ts_sec_to_ms (t : Nat) : Nat :=
  t * 1000

/-- Big-endian 32-byte encoding of a value, used to build concrete log data
exactly as the test fixtures' hex strings do. -/
def word32 (n : Nat) : List Nat :=
  (List.range 32).map (fun i => n / 256 ^ (31 - i) % 256)

/-- Error raised by the amount normalizer on negative decimals. -/
inductive InvalidDecimalsError where
  | invalidDecimals
  deriving DecidableEq, Repr

/-- Modelled from the spec: the Amount Normalizer (spec 4.1; the
implementation behind rotkehlchen.chain.ethereum.utils is not under src).
Computes raw / 10^decimals in exact decimal arithmetic and fails with
InvalidDecimalsError when decimals is negative. -/
def normalizeAmount (raw : Nat) (decimals : Int) : Except InvalidDecimalsError ℚ :=
  if decimals < 0 then Except.error InvalidDecimalsError.invalidDecimals
  else Except.ok ((raw : ℚ) / 10 ^ decimals.toNat)

/-- Modelled from the spec: asset_normalized_value
(rotkehlchen.chain.ethereum.utils, not under src): raw token units divided by
10^decimals of the asset, in exact decimal arithmetic (spec 4.1). -/
def asset_normalized_value (amount : Nat) (asset : Asset) : ℚ :=
  (amount : ℚ) / 10 ^ asset.decimals

/-- Protocol tag of the Illuvium module
(rotkehlchen.chain.ethereum.modules.illuvium.constants.CPT_ILLUVIUM). -/
def CPT_ILLUVIUM : String := "illuvium"

/-- Protocol tag of the gas fee decoder
(rotkehlchen.chain.evm.decoding.constants.CPT_GAS). -/
def CPT_GAS : String := "gas"

/-- Address of the Illuvium V1 ILV/ETH core pool (decoder.py line 23). -/
def ILV_ETH_CORE_POOL_V1 : Nat := 0x8B4d8443a0229349A9892D4F7CbE89eF5f843F72

/-- Address of the Illuvium V1 ILV core pool (decoder.py line 24). -/
def ILV_CORE_POOL_V1 : Nat := 0x25121EDDf746c884ddE4619b573A7B10714E2a36

/-- Staked event signature of the V1 pools (decoder.py line 25, the byte
literal as its big-endian value). -/
def ILV_CORE_POOL_V1_STAKING : Nat :=
  0x5dac0c1b1112564a045ba943c9d50270893e8e826c49be8e7073adc713ab7bd7

/-- Unstaked event signature of the V1 pools (decoder.py line 26). -/
def ILV_CORE_POOL_V1_UNSTAKING : Nat :=
  0xd8654fcc8cf5b36d30b3f5e4688fc78118e6d68de60b9994e09902268b57c3e3

/-- YieldClaimed event signature of the V1 pools (decoder.py line 27). -/
def ILV_CORE_POOL_V1_CLAIM : Nat :=
  0x5033fdcf01566fb38fe1493114b856ff2a5d1c7875a6fafdacd1d320a012806a

/-- ERC-20 Transfer event signature, as in the test fixtures. -/
def ERC20_TRANSFER_SIGNATURE : Nat :=
  0xddf252ad1be2c89b69c2b068fc378daa952ba7f163c4a11628f55a4df523b3ef

/-- Signatures the Illuvium decode function recognizes (the tuple at
decoder.py lines 63-67). -/
def illuviumKnownSignatures : List Nat :=
  [ILV_CORE_POOL_V1_STAKING, ILV_CORE_POOL_V1_UNSTAKING, ILV_CORE_POOL_V1_CLAIM]

/-- Pool label lookup (IlluviumDecoder._poolname_for_counterparty,
decoder.py lines 48-53): the ILV/ETH pool address maps to ILV/ETH, the ILV
pool address to ILV, anything else to Unknown. -/
def poolname_for_counterparty (counterparty : Option CounterpartyVal) : String :=
  if counterparty = some (CounterpartyVal.addr ILV_ETH_CORE_POOL_V1) then "ILV/ETH"
  else if counterparty = some (CounterpartyVal.addr ILV_CORE_POOL_V1) then "ILV"
  else "Unknown"

/-- First in-place reclassification block of the scan over decoded_events
(decoder.py lines 70-87).  The python condition
`topics[0] == STAKING and event.asset == A_SLP_ILV_ETH or event.asset == A_ILV`
parses by python precedence as `(A and B) or C`, which is what is embedded
here. -/
def stakeReclassify (tx_log : EvmTxReceiptLog) (event : HistoryBaseEntry) : HistoryBaseEntry :=
  if (tx_log.topics.getD 0 0 = ILV_CORE_POOL_V1_STAKING ∧ event.asset = Asset.SLP_ILV_ETH)
      ∨ event.asset = Asset.ILV then
    if event.location_label = some (hex_or_bytes_to_address (tx_log.topics.getD 1 0))
        ∧ event.event_type = HistoryEventType.SPEND then
      { event with
        event_type := HistoryEventType.STAKING
        event_subtype := HistoryEventSubType.DEPOSIT_ASSET
        counterparty := some (CounterpartyVal.tag CPT_ILLUVIUM)
        notes := Notes.stakeNote event.balance.amount event.asset.symbol_or_name
          (poolname_for_counterparty event.counterparty)
        extra_data := some (ExtraData.staked event.balance.amount event.asset.symbol_or_name) }
    else event
  else event

/-- Second in-place reclassification block (decoder.py lines 89-105), with
the same `(A and B) or C` python precedence. -/
def unstakeReclassify (tx_log : EvmTxReceiptLog) (event : HistoryBaseEntry) : HistoryBaseEntry :=
  if (tx_log.topics.getD 0 0 = ILV_CORE_POOL_V1_UNSTAKING ∧ event.asset = Asset.SLP_ILV_ETH)
      ∨ event.asset = Asset.ILV then
    if event.location_label = some (hex_or_bytes_to_address (tx_log.topics.getD 1 0))
        ∧ event.event_type = HistoryEventType.RECEIVE then
      { event with
        event_type := HistoryEventType.STAKING
        event_subtype := HistoryEventSubType.REMOVE_ASSET
        counterparty := some (CounterpartyVal.tag CPT_ILLUVIUM)
        notes := Notes.unstakeNote event.balance.amount event.asset.symbol_or_name
          (poolname_for_counterparty event.counterparty)
        extra_data := some (ExtraData.unstaked event.balance.amount event.asset.symbol_or_name) }
    else event
  else event

/-- Third in-place reclassification block (decoder.py lines 107-119): every
event whose asset is sILV is rewritten when the log carries the claim
signature — the source has no location_label or event_type guard here. -/
def claimReclassify (tx_log : EvmTxReceiptLog) (event : HistoryBaseEntry) : HistoryBaseEntry :=
  if tx_log.topics.getD 0 0 = ILV_CORE_POOL_V1_CLAIM ∧ event.asset = Asset.SILV_V1 then
    { event with
      event_type := HistoryEventType.RECEIVE
      event_subtype := HistoryEventSubType.REWARD
      counterparty := some (CounterpartyVal.tag CPT_ILLUVIUM)
      notes := Notes.claimNote event.balance.amount Asset.SILV_V1.symbol_or_name
      extra_data := some (ExtraData.claimed event.balance.amount Asset.SILV_V1.symbol_or_name) }
  else event

/-- One pass of the for-loop body of decoder.py lines 70-119 over a single
event: the three reclassification blocks applied in source order. -/
def reclassifyEvent (tx_log : EvmTxReceiptLog) (event : HistoryBaseEntry) : HistoryBaseEntry :=
  claimReclassify tx_log (unstakeReclassify tx_log (stakeReclassify tx_log event))

/-- Modelled from the spec: BaseDecoderTools.get_sequence_index is not under
src; spec 4.2 item 3 derives synthesized sequence indices from the base log's
position and the test fixtures fix the derivation as log_index + 1. -/
def get_sequence_index (tx_log : EvmTxReceiptLog) : Nat :=
  tx_log.log_index + 1

/-- First event synthesized by the claim branch (decoder.py lines 136-152):
the ILV reward receipt. -/
def claim_reward_event (tx_log : EvmTxReceiptLog) (transaction : EvmTransaction) :
    HistoryBaseEntry :=
  let user_address := hex_or_bytes_to_address (tx_log.topics.getD 1 0)
  let raw_amount := hex_or_bytes_to_int ((tx_log.data.drop 32).take 32)
  let amount := asset_normalized_value raw_amount Asset.ILV
  { event_identifier := transaction.tx_hash
    timestamp := ts_sec_to_ms transaction.timestamp
    location := Location.BLOCKCHAIN
    location_label := some user_address
    asset := Asset.ILV
    balance := { amount := amount, usd_value := 0 }
    counterparty := some (CounterpartyVal.tag CPT_ILLUVIUM)
    sequence_index := get_sequence_index tx_log
    event_type := HistoryEventType.RECEIVE
    event_subtype := HistoryEventSubType.REWARD
    notes := Notes.claimNote amount Asset.ILV.symbol_or_name
    extra_data := some (ExtraData.claimed amount Asset.ILV.symbol_or_name) }

/-- Second event synthesized by the claim branch (decoder.py lines 154-171):
the auto-staked ILV deposit, one sequence index after the first. -/
def claim_stake_event (tx_log : EvmTxReceiptLog) (transaction : EvmTransaction) :
    HistoryBaseEntry :=
  let user_address := hex_or_bytes_to_address (tx_log.topics.getD 1 0)
  let raw_amount := hex_or_bytes_to_int ((tx_log.data.drop 32).take 32)
  let amount := asset_normalized_value raw_amount Asset.ILV
  { event_identifier := transaction.tx_hash
    timestamp := ts_sec_to_ms transaction.timestamp
    location := Location.BLOCKCHAIN
    location_label := some user_address
    asset := Asset.ILV
    balance := { amount := amount, usd_value := 0 }
    counterparty := some (CounterpartyVal.tag CPT_ILLUVIUM)
    sequence_index := get_sequence_index tx_log + 1
    event_type := HistoryEventType.STAKING
    event_subtype := HistoryEventSubType.DEPOSIT_ASSET
    notes := Notes.stakeNote amount Asset.ILV.symbol_or_name
      (poolname_for_counterparty (some (CounterpartyVal.addr ILV_CORE_POOL_V1)))
    extra_data := some (ExtraData.staked amount Asset.ILV.symbol_or_name) }

/-- IlluviumDecoder._decode_illuvium_v1_events (decoder.py lines 55-173).
The python function mutates decoded_events in place and returns
(None, list of action items); the embedding returns the pair the python
returns together with the decoded_events list as it stands after the call.
The flag word data[0:32] short-circuits only on the exact value 1 (claim as
sILV, handled by the reclassification scan); any other value falls through
to the ILV-claim-and-stake synthesis. -/
def decode_illuvium_v1_events (tx_log : EvmTxReceiptLog) (transaction : EvmTransaction)
    (decoded_events : List HistoryBaseEntry) :
    (Option HistoryBaseEntry × List ActionItem) × List HistoryBaseEntry :=
  if tx_log.topics.getD 0 0 ∉ illuviumKnownSignatures then
    ((none, []), decoded_events)
  else
    if tx_log.topics.getD 0 0 = ILV_CORE_POOL_V1_CLAIM then
      if hex_or_bytes_to_int (tx_log.data.take 32) = 1 then
        ((none, []), decoded_events.map (reclassifyEvent tx_log))
      else
        ((none, []),
          decoded_events.map (reclassifyEvent tx_log)
            ++ [claim_reward_event tx_log transaction,
                claim_stake_event tx_log transaction])
    else
      ((none, []), decoded_events.map (reclassifyEvent tx_log))

/-- Addresses the Illuvium module claims
(IlluviumDecoder.addresses_to_decoders, decoder.py lines 175-179): both V1
pools map to the one decode function. -/
def illuvium_addresses : List Nat :=
  [ILV_ETH_CORE_POOL_V1, ILV_CORE_POOL_V1]

/-- Protocol tags the Illuvium module declares
(IlluviumDecoder.counterparties, decoder.py lines 181-182). -/
def counterparties : List String :=
  [CPT_ILLUVIUM]

/-- Modelled from the spec: the asset-registry collaborator (spec 6) that
resolves a token contract address to a token identity is not under src; the
addresses are the ones the test fixtures use (sILV, ILV, SLP ILV/ETH,
sILV2). -/
def tokenOfAddress (a : Nat) : Option Asset :=
  if a = 0x398AeA1c9ceb7dE800284bb399A15e0Efe5A9EC2 then some Asset.SILV_V1
  else if a = 0x767FE9EDC9E0dF98E07454847909b5E959D7ca0E then some Asset.ILV
  else if a = 0x6a091a3406E0073C3CD6340122143009aDac0EDa then some Asset.SLP_ILV_ETH
  else if a = 0x7E77dCb127F99ECe88230a64Db8d595F31F1b068 then some Asset.SILV_V2
  else none

/-- Modelled from the spec: the network-fee event the orchestrator creates
before protocol decoding (spec 4.4 step 1 and the fee invariant of spec 8;
EthereumTransactionDecoder is not under src).  SPEND/FEE of the native gas
asset, amount gas_used * gas_price normalized to 18 decimals,
sequence_index 0, tagged with the gas counterparty — exactly the shape of the
TRANSACTION_FEE_EVENT test fixture. -/
def mkFeeEvent (transaction : EvmTransaction) : HistoryBaseEntry :=
  let amount := asset_normalized_value (transaction.gas_used * transaction.gas_price) Asset.ETH
  { event_identifier := transaction.tx_hash
    sequence_index := 0
    timestamp := ts_sec_to_ms transaction.timestamp
    location := Location.BLOCKCHAIN
    location_label := some transaction.from_address
    asset := Asset.ETH
    balance := { amount := amount, usd_value := 0 }
    event_type := HistoryEventType.SPEND
    event_subtype := HistoryEventSubType.FEE
    counterparty := some (CounterpartyVal.tag CPT_GAS)
    notes := Notes.burnedGas amount
    extra_data := none }

/-- Modelled from the spec: the default transfer decoder (spec 4.2 item 2:
the plain SPEND or RECEIVE an earlier generic pass produces; not under src).
For an ERC-20 Transfer log of a known token whose receiver (or else sender)
is one of the tracked user accounts, it yields one generic event with the
NONE subtype, sequence index derived from the log position, attributed to
the user side with the other side's address left in the counterparty
field. -/
def erc20TransferEvent (tracked : List Nat) (transaction : EvmTransaction)
    (tx_log : EvmTxReceiptLog) : Option HistoryBaseEntry :=
  if tx_log.topics.getD 0 0 = ERC20_TRANSFER_SIGNATURE then
    match tokenOfAddress tx_log.address with
    | none => none
    | some asset =>
      let fromAddr := hex_or_bytes_to_address (tx_log.topics.getD 1 0)
      let toAddr := hex_or_bytes_to_address (tx_log.topics.getD 2 0)
      let amount := asset_normalized_value (hex_or_bytes_to_int (tx_log.data.take 32)) asset
      if toAddr ∈ tracked then
        some { event_identifier := transaction.tx_hash
               sequence_index := get_sequence_index tx_log
               timestamp := ts_sec_to_ms transaction.timestamp
               location := Location.BLOCKCHAIN
               location_label := some toAddr
               asset := asset
               balance := { amount := amount, usd_value := 0 }
               event_type := HistoryEventType.RECEIVE
               event_subtype := HistoryEventSubType.NONE
               counterparty := some (CounterpartyVal.addr fromAddr)
               notes := Notes.transferNote
               extra_data := none }
      else if fromAddr ∈ tracked then
        some { event_identifier := transaction.tx_hash
               sequence_index := get_sequence_index tx_log
               timestamp := ts_sec_to_ms transaction.timestamp
               location := Location.BLOCKCHAIN
               location_label := some fromAddr
               asset := asset
               balance := { amount := amount, usd_value := 0 }
               event_type := HistoryEventType.SPEND
               event_subtype := HistoryEventSubType.NONE
               counterparty := some (CounterpartyVal.addr toAddr)
               notes := Notes.transferNote
               extra_data := none }
      else none
  else none

/-- Modelled from the spec: the generic-transfer part of one iteration of
the orchestrator's log loop (spec 4.4 step 2; EthereumTransactionDecoder is
not under src): run the generic transfer pass for the log and append its
event when it produced one. -/
def appendTransferEvent (tracked : List Nat) (transaction : EvmTransaction)
    (events : List HistoryBaseEntry) (tx_log : EvmTxReceiptLog) : List HistoryBaseEntry :=
  match erc20TransferEvent tracked transaction tx_log with
  | some ev => events ++ [ev]
  | none => events

/-- Modelled from the spec: after the generic pass of a log, run the decode
functions the registry resolves for the log's address (spec 4.4 step 2) —
for the two Illuvium pool addresses that is the one Illuvium decode function,
which rewrites the running events list. -/
def processLog (tracked : List Nat) (transaction : EvmTransaction)
    (events : List HistoryBaseEntry) (tx_log : EvmTxReceiptLog) : List HistoryBaseEntry :=
  if tx_log.address ∈ illuvium_addresses then
    (decode_illuvium_v1_events tx_log transaction
      (appendTransferEvent tracked transaction events tx_log)).2
  else
    appendTransferEvent tracked transaction events tx_log

/-- Stable insertion of an event into a list ordered by ascending
sequence_index, for the final ordering step of spec 4.4 step 5. -/
def insertBySeq (e : HistoryBaseEntry) : List HistoryBaseEntry → List HistoryBaseEntry
  | [] => [e]
  | x :: xs =>
    if e.sequence_index ≤ x.sequence_index then e :: x :: xs
    else x :: insertBySeq e xs

/-- Stable insertion sort by ascending sequence_index (spec 4.4 step 5). -/
def sortBySequenceIndex : List HistoryBaseEntry → List HistoryBaseEntry
  | [] => []
  | x :: xs => insertBySeq x (sortBySequenceIndex xs)

/-- Modelled from the spec: the Transaction Decode Orchestrator
(spec 4.4, EthereumTransactionDecoder.decode_transaction is not under src):
create the fee event first, fold the log loop over the receipt's logs in
order, and hand back the events ordered by ascending sequence_index. -/
def decode_transaction (tracked : List Nat) (transaction : EvmTransaction)
    (tx_receipt : EvmTxReceipt) : List HistoryBaseEntry :=
  sortBySequenceIndex
    (tx_receipt.logs.foldl (processLog tracked transaction) [mkFeeEvent transaction])

/-- Events of a decoded transaction other than the network fee event. -/
def nonFeeEvents (events : List HistoryBaseEntry) : List HistoryBaseEntry :=
  events.filter (fun e => decide (e.event_subtype ≠ HistoryEventSubType.FEE))

/-- Observable part of an event the scenario claims talk about:
classification pair, exact amount and sequence index. -/
def eventView (e : HistoryBaseEntry) :
    HistoryEventType × HistoryEventSubType × ℚ × Nat :=
  (e.event_type, e.event_subtype, e.balance.amount, e.sequence_index)


/-- Tracked user account of the test fixtures
(test_illuvium.py TEST_USER_ADDRESS). -/
def TEST_USER_ADDRESS : Nat := 0xDf22269fD88318FB13956b6329BB5959AA06181d

/-- Tracked accounts list of the test fixtures (ethereum_accounts). -/
def testTracked : List Nat := [TEST_USER_ADDRESS]

/-- Transaction of the test fixtures (test_illuvium.py TEST_TRANSACTION). -/
def TEST_TRANSACTION : EvmTransaction :=
  { tx_hash := 0xaf722bd1b29ed59dc2648c051d46ff129535980b25fc86d9814f57c38db2a18a
    timestamp := 1639307389
    block_number := 13789926
    from_address := TEST_USER_ADDRESS
    to_address := ILV_ETH_CORE_POOL_V1
    value := 0
    gas := 320665
    gas_price := 40204343794
    gas_used := 239065
    input_data := [0x52, 0x04, 0x4e, 0xc9] ++ word32 0x9562ac1b79ac10a
      ++ word32 0x62249662 ++ word32 0
    nonce := 34 }

/-- Transfer log of test_v1_ilv_eth_pool_silv_claim: the sILV token contract
mints raw amount 0x3105E9EE965119A to the user. -/
def silvTransferLog : EvmTxReceiptLog :=
  { log_index := 420
    data := word32 0x3105E9EE965119A
    address := 0x398AeA1c9ceb7dE800284bb399A15e0Efe5A9EC2
    removed := false
    topics := [ERC20_TRANSFER_SIGNATURE, 0, TEST_USER_ADDRESS] }

/-- Claim log of test_v1_ilv_eth_pool_silv_claim: flag word 1 (claim as the
reward token sILV directly) and raw amount 0x3105E9EE965119A, emitted by the
ILV/ETH V1 pool. -/
def silvClaimLog : EvmTxReceiptLog :=
  { log_index := 421
    data := word32 1 ++ word32 0x3105E9EE965119A
    address := ILV_ETH_CORE_POOL_V1
    removed := false
    topics := [ILV_CORE_POOL_V1_CLAIM, TEST_USER_ADDRESS, TEST_USER_ADDRESS] }

/-- Receipt of test_v1_ilv_eth_pool_silv_claim: the sILV Transfer log
followed by the flag-1 claim log. -/
def silvClaimReceipt : EvmTxReceipt :=
  { tx_hash := TEST_TRANSACTION.tx_hash
    status := true
    type := 0
    logs := [silvTransferLog, silvClaimLog] }

/-- Claim log of test_v1_ilv_eth_pool_ilv_claim: flag word 0 and raw amount
0x41ed9a0a90faa14b, emitted by the ILV/ETH V1 pool. -/
def ilvClaimLog : EvmTxReceiptLog :=
  { log_index := 421
    data := word32 0 ++ word32 0x41ed9a0a90faa14b
    address := ILV_ETH_CORE_POOL_V1
    removed := false
    topics := [ILV_CORE_POOL_V1_CLAIM, TEST_USER_ADDRESS, TEST_USER_ADDRESS] }

/-- Receipt of test_v1_ilv_eth_pool_ilv_claim: the single flag-0 claim
log. -/
def ilvClaimReceipt : EvmTxReceipt :=
  { tx_hash := TEST_TRANSACTION.tx_hash
    status := true
    type := 0
    logs := [ilvClaimLog] }

/-- Unstaking-signature log used as a counterexample input: emitted by the
ILV/ETH V1 pool with the user in topic 1. -/
def unstakeLogCex : EvmTxReceiptLog :=
  { log_index := 5
    data := word32 0x1bc16d674ec80000
    address := ILV_ETH_CORE_POOL_V1
    removed := false
    topics := [ILV_CORE_POOL_V1_UNSTAKING, TEST_USER_ADDRESS, TEST_USER_ADDRESS] }

/-- Generic SPEND event of asset ILV attributed to the user, as the default
transfer decoder would have produced it, used as a counterexample input. -/
def ilvSpendEventCex : HistoryBaseEntry :=
  { event_identifier := TEST_TRANSACTION.tx_hash
    sequence_index := 1
    timestamp := ts_sec_to_ms TEST_TRANSACTION.timestamp
    location := Location.BLOCKCHAIN
    location_label := some TEST_USER_ADDRESS
    asset := Asset.ILV
    balance := { amount := 2, usd_value := 0 }
    event_type := HistoryEventType.SPEND
    event_subtype := HistoryEventSubType.NONE
    counterparty := some (CounterpartyVal.addr ILV_ETH_CORE_POOL_V1)
    notes := Notes.transferNote
    extra_data := none }

/-- Claim-signature log whose flag word holds 2, a value outside the
documented domain of the branch flag, used as a counterexample input. -/
def flag2ClaimLog : EvmTxReceiptLog :=
  { log_index := 7
    data := word32 2 ++ word32 1000
    address := ILV_ETH_CORE_POOL_V1
    removed := false
    topics := [ILV_CORE_POOL_V1_CLAIM, TEST_USER_ADDRESS, TEST_USER_ADDRESS] }

theorem stakeReclassify_seq (lg : EvmTxReceiptLog) (e : HistoryBaseEntry) :
    (stakeReclassify lg e).sequence_index = e.sequence_index := by
  unfold stakeReclassify
  repeat' split
  all_goals rfl

theorem unstakeReclassify_seq (lg : EvmTxReceiptLog) (e : HistoryBaseEntry) :
    (unstakeReclassify lg e).sequence_index = e.sequence_index := by
  unfold unstakeReclassify
  repeat' split
  all_goals rfl

theorem claimReclassify_seq (lg : EvmTxReceiptLog) (e : HistoryBaseEntry) :
    (claimReclassify lg e).sequence_index = e.sequence_index := by
  unfold claimReclassify
  split
  all_goals rfl

theorem reclassify_seq (lg : EvmTxReceiptLog) (e : HistoryBaseEntry) :
    (reclassifyEvent lg e).sequence_index = e.sequence_index := by
  unfold reclassifyEvent
  rw [claimReclassify_seq, unstakeReclassify_seq, stakeReclassify_seq]

theorem stakeReclassify_subtype_ne_fee (lg : EvmTxReceiptLog) (e : HistoryBaseEntry)
    (h : e.event_subtype ≠ HistoryEventSubType.FEE) :
    (stakeReclassify lg e).event_subtype ≠ HistoryEventSubType.FEE := by
  unfold stakeReclassify
  repeat' split
  all_goals simp_all

theorem unstakeReclassify_subtype_ne_fee (lg : EvmTxReceiptLog) (e : HistoryBaseEntry)
    (h : e.event_subtype ≠ HistoryEventSubType.FEE) :
    (unstakeReclassify lg e).event_subtype ≠ HistoryEventSubType.FEE := by
  unfold unstakeReclassify
  repeat' split
  all_goals simp_all

theorem claimReclassify_subtype_ne_fee (lg : EvmTxReceiptLog) (e : HistoryBaseEntry)
    (h : e.event_subtype ≠ HistoryEventSubType.FEE) :
    (claimReclassify lg e).event_subtype ≠ HistoryEventSubType.FEE := by
  unfold claimReclassify
  split
  all_goals simp_all

theorem reclassify_subtype_ne_fee (lg : EvmTxReceiptLog) (e : HistoryBaseEntry)
    (h : e.event_subtype ≠ HistoryEventSubType.FEE) :
    (reclassifyEvent lg e).event_subtype ≠ HistoryEventSubType.FEE :=
  claimReclassify_subtype_ne_fee lg _
    (unstakeReclassify_subtype_ne_fee lg _ (stakeReclassify_subtype_ne_fee lg e h))

theorem stakeReclassify_eth (lg : EvmTxReceiptLog) (e : HistoryBaseEntry)
    (h : e.asset = Asset.ETH) : stakeReclassify lg e = e := by
  simp [stakeReclassify, h]

theorem unstakeReclassify_eth (lg : EvmTxReceiptLog) (e : HistoryBaseEntry)
    (h : e.asset = Asset.ETH) : unstakeReclassify lg e = e := by
  simp [unstakeReclassify, h]

theorem claimReclassify_eth (lg : EvmTxReceiptLog) (e : HistoryBaseEntry)
    (h : e.asset = Asset.ETH) : claimReclassify lg e = e := by
  simp [claimReclassify, h]

theorem reclassify_eth (lg : EvmTxReceiptLog) (e : HistoryBaseEntry)
    (h : e.asset = Asset.ETH) : reclassifyEvent lg e = e := by
  unfold reclassifyEvent
  rw [stakeReclassify_eth lg e h, unstakeReclassify_eth lg e h, claimReclassify_eth lg e h]

theorem erc20_event_shape (tracked : List Nat) (t : EvmTransaction)
    (lg : EvmTxReceiptLog) (ev : HistoryBaseEntry)
    (h : erc20TransferEvent tracked t lg = some ev) :
    ev.event_subtype = HistoryEventSubType.NONE ∧ 1 ≤ ev.sequence_index := by
  unfold erc20TransferEvent at h
  split at h
  · split at h
    · simp at h
    · dsimp only at h
      split at h
      · injection h with h2
        subst h2
        exact ⟨rfl, Nat.le_add_left 1 _⟩
      · split at h
        · injection h with h2
          subst h2
          exact ⟨rfl, Nat.le_add_left 1 _⟩
        · simp at h
  · simp at h

theorem claim_reward_event_subtype (lg : EvmTxReceiptLog) (t : EvmTransaction) :
    (claim_reward_event lg t).event_subtype = HistoryEventSubType.REWARD := rfl

theorem claim_reward_event_seq (lg : EvmTxReceiptLog) (t : EvmTransaction) :
    (claim_reward_event lg t).sequence_index = lg.log_index + 1 := rfl

theorem claim_stake_event_subtype (lg : EvmTxReceiptLog) (t : EvmTransaction) :
    (claim_stake_event lg t).event_subtype = HistoryEventSubType.DEPOSIT_ASSET := rfl

theorem claim_stake_event_seq (lg : EvmTxReceiptLog) (t : EvmTransaction) :
    (claim_stake_event lg t).sequence_index = lg.log_index + 1 + 1 := rfl

/-- Shape the events list keeps through the whole log loop: the fee event
leads and every later event is a non-fee event with a positive sequence
index. -/
def feeShape (t : EvmTransaction) (l : List HistoryBaseEntry) : Prop :=
  ∃ rest, l = mkFeeEvent t :: rest ∧
    ∀ e ∈ rest, e.event_subtype ≠ HistoryEventSubType.FEE ∧ 1 ≤ e.sequence_index

theorem decode_illuvium_feeShape (lg : EvmTxReceiptLog) (t : EvmTransaction)
    (l : List HistoryBaseEntry) (h : feeShape t l) :
    feeShape t ((decode_illuvium_v1_events lg t l).2) := by
  obtain ⟨rest, rfl, hrest⟩ := h
  have hmap : (mkFeeEvent t :: rest).map (reclassifyEvent lg)
      = mkFeeEvent t :: rest.map (reclassifyEvent lg) := by
    rw [List.map_cons, reclassify_eth lg (mkFeeEvent t) rfl]
  have hrest2 : ∀ e ∈ rest.map (reclassifyEvent lg),
      e.event_subtype ≠ HistoryEventSubType.FEE ∧ 1 ≤ e.sequence_index := by
    intro e he
    rcases List.mem_map.mp he with ⟨a, ha, rfl⟩
    exact ⟨reclassify_subtype_ne_fee lg a (hrest a ha).1,
      by rw [reclassify_seq]; exact (hrest a ha).2⟩
  unfold decode_illuvium_v1_events
  split
  · exact ⟨rest, rfl, hrest⟩
  · split
    · split
      · exact ⟨rest.map (reclassifyEvent lg), by rw [hmap], hrest2⟩
      · refine ⟨rest.map (reclassifyEvent lg)
          ++ [claim_reward_event lg t, claim_stake_event lg t], by rw [hmap]; rfl, ?_⟩
        intro e he
        rcases List.mem_append.mp he with he | he
        · exact hrest2 e he
        · simp only [List.mem_cons, List.not_mem_nil, or_false] at he
          rcases he with rfl | rfl
          · refine ⟨by rw [claim_reward_event_subtype]; simp, ?_⟩
            rw [claim_reward_event_seq]
            omega
          · refine ⟨by rw [claim_stake_event_subtype]; simp, ?_⟩
            rw [claim_stake_event_seq]
            omega
    · exact ⟨rest.map (reclassifyEvent lg), by rw [hmap], hrest2⟩

theorem processLog_feeShape (tracked : List Nat) (t : EvmTransaction)
    (l : List HistoryBaseEntry) (lg : EvmTxReceiptLog) (h : feeShape t l) :
    feeShape t (processLog tracked t l lg) := by
  have h2 : feeShape t (appendTransferEvent tracked t l lg) := by
    unfold appendTransferEvent
    split
    · next ev hev =>
      obtain ⟨rest, rfl, hrest⟩ := h
      refine ⟨rest ++ [ev], rfl, ?_⟩
      intro e he
      rcases List.mem_append.mp he with he | he
      · exact hrest e he
      · simp only [List.mem_singleton] at he
        subst he
        obtain ⟨hs, hq⟩ := erc20_event_shape tracked t lg e hev
        exact ⟨by simp [hs], hq⟩
    · exact h
  unfold processLog
  split
  · exact decode_illuvium_feeShape _ _ _ h2
  · exact h2

theorem foldl_feeShape (tracked : List Nat) (t : EvmTransaction)
    (logs : List EvmTxReceiptLog) (l : List HistoryBaseEntry) (h : feeShape t l) :
    feeShape t (logs.foldl (processLog tracked t) l) := by
  induction logs generalizing l with
  | nil => exact h
  | cons lg lgs ih => exact ih _ (processLog_feeShape tracked t l lg h)

theorem insertBySeq_perm (e : HistoryBaseEntry) (l : List HistoryBaseEntry) :
    List.Perm (insertBySeq e l) (e :: l) := by
  induction l with
  | nil => exact List.Perm.refl _
  | cons x xs ih =>
    unfold insertBySeq
    split
    · exact List.Perm.refl _
    · exact (ih.cons x).trans (List.Perm.swap e x xs)

theorem sortBySequenceIndex_perm (l : List HistoryBaseEntry) :
    List.Perm (sortBySequenceIndex l) l := by
  induction l with
  | nil => exact List.Perm.refl _
  | cons x xs ih => exact (insertBySeq_perm x _).trans (ih.cons x)

theorem insertBySeq_zero (e : HistoryBaseEntry) (l : List HistoryBaseEntry)
    (h : e.sequence_index = 0) : insertBySeq e l = e :: l := by
  cases l with
  | nil => rfl
  | cons x xs =>
    unfold insertBySeq
    rw [if_pos]
    rw [h]
    exact Nat.zero_le _

theorem stakeReclassify_counterparty (lg : EvmTxReceiptLog) (e : HistoryBaseEntry) :
    stakeReclassify lg e = e ∨
    (stakeReclassify lg e).counterparty = some (CounterpartyVal.tag CPT_ILLUVIUM) := by
  unfold stakeReclassify
  repeat' split
  · exact Or.inr rfl
  · exact Or.inl rfl
  · exact Or.inl rfl

theorem unstakeReclassify_counterparty (lg : EvmTxReceiptLog) (e : HistoryBaseEntry) :
    unstakeReclassify lg e = e ∨
    (unstakeReclassify lg e).counterparty = some (CounterpartyVal.tag CPT_ILLUVIUM) := by
  unfold unstakeReclassify
  repeat' split
  · exact Or.inr rfl
  · exact Or.inl rfl
  · exact Or.inl rfl

theorem claimReclassify_counterparty (lg : EvmTxReceiptLog) (e : HistoryBaseEntry) :
    claimReclassify lg e = e ∨
    (claimReclassify lg e).counterparty = some (CounterpartyVal.tag CPT_ILLUVIUM) := by
  unfold claimReclassify
  split
  · exact Or.inr rfl
  · exact Or.inl rfl

theorem reclassify_counterparty (lg : EvmTxReceiptLog) (e : HistoryBaseEntry) :
    reclassifyEvent lg e = e ∨
    (reclassifyEvent lg e).counterparty = some (CounterpartyVal.tag CPT_ILLUVIUM) := by
  unfold reclassifyEvent
  rcases claimReclassify_counterparty lg (unstakeReclassify lg (stakeReclassify lg e)) with
    hc | hc
  · rw [hc]
    rcases unstakeReclassify_counterparty lg (stakeReclassify lg e) with hu | hu
    · rw [hu]
      rcases stakeReclassify_counterparty lg e with hs | hs
      · exact Or.inl hs
      · exact Or.inr hs
    · exact Or.inr hu
  · exact Or.inr hc

theorem mem_decode_output (lg : EvmTxReceiptLog) (t : EvmTransaction)
    (evs : List HistoryBaseEntry) (x : HistoryBaseEntry)
    (hsig : lg.topics.getD 0 0 ∈ illuviumKnownSignatures)
    (hx : x ∈ evs.map (reclassifyEvent lg)) :
    x ∈ (decode_illuvium_v1_events lg t evs).2 := by
  unfold decode_illuvium_v1_events
  rw [if_neg (not_not_intro hsig)]
  split
  · split
    · exact hx
    · exact List.mem_append_left _ hx
  · exact hx

/-- C1: for the receipt whose logs are a transfer-signature log moving raw
amount 0x3105E9EE965119A of the reward token sILV to the user followed by a
claim-signature log at an Illuvium V1 pool address with flag byte 1 (claim
as reward token directly), decoding yields exactly one non-fee event, with
event_type RECEIVE, event_subtype REWARD, amount 0x3105E9EE965119A / 10^18
exactly, and sequence_index 421, the claim log's index: the generic transfer
and the claim are merged into one event, never counted twice. -/
theorem silv_claim_decodes_to_single_reward_event :
    (nonFeeEvents (decode_transaction testTracked TEST_TRANSACTION silvClaimReceipt)).map
        eventView
      = [(HistoryEventType.RECEIVE, HistoryEventSubType.REWARD,
          ((0x3105E9EE965119A : ℕ) : ℚ) / 10 ^ 18, silvClaimLog.log_index)] := by
  rfl

/-- C2: for the receipt whose one log is a claim-signature log with flag
byte 0 and raw amount 0x41ed9a0a90faa14b, decoding yields exactly two
non-fee events with consecutive sequence indices 422 and 423: first
RECEIVE/REWARD, then STAKING/DEPOSIT_ASSET, both with the exact normalized
amount 0x41ed9a0a90faa14b / 10^18. -/
theorem ilv_claim_decodes_to_reward_then_stake :
    (nonFeeEvents (decode_transaction testTracked TEST_TRANSACTION ilvClaimReceipt)).map
        eventView
      = [(HistoryEventType.RECEIVE, HistoryEventSubType.REWARD,
          ((0x41ed9a0a90faa14b : ℕ) : ℚ) / 10 ^ 18, 422),
         (HistoryEventType.STAKING, HistoryEventSubType.DEPOSIT_ASSET,
          ((0x41ed9a0a90faa14b : ℕ) : ℚ) / 10 ^ 18, 422 + 1)] := by
  rfl

/-- C10: for every input, the Illuvium decode function returns exactly
(none, []): no synthesized event is delivered through the return value and
no action item is ever emitted; new events reach the caller only through the
events list. -/
theorem decode_returns_none_and_no_action_items (lg : EvmTxReceiptLog)
    (t : EvmTransaction) (evs : List HistoryBaseEntry) :
    (decode_illuvium_v1_events lg t evs).1 = (none, []) := by
  unfold decode_illuvium_v1_events
  split
  · rfl
  · split
    · split
      · rfl
      · rfl
    · rfl

/-- C8: for every log whose topics head is none of the module's known
signatures, the decode function returns (none, []) and leaves every entry of
events_so_far unchanged, appending nothing and producing no action items. -/
theorem unknown_signature_is_noop (lg : EvmTxReceiptLog) (t : EvmTransaction)
    (evs : List HistoryBaseEntry)
    (h : lg.topics.getD 0 0 ∉ illuviumKnownSignatures) :
    decode_illuvium_v1_events lg t evs = ((none, []), evs) := by
  unfold decode_illuvium_v1_events
  rw [if_pos h]

/-- Witness for C8 at the concrete ERC-20 transfer log of the sILV claim
fixture, whose signature is not an Illuvium one. -/
theorem unknown_signature_is_noop_witness :
    decode_illuvium_v1_events silvTransferLog TEST_TRANSACTION [ilvSpendEventCex]
      = ((none, []), [ilvSpendEventCex]) :=
  unknown_signature_is_noop silvTransferLog TEST_TRANSACTION [ilvSpendEventCex] (by decide)

/-- C5: decoding is deterministic — the orchestrated decode of a
(transaction, receipt) pair and the Illuvium decode function's result
together with its rewrite of events_so_far are functions of their arguments
alone (plus the module-internal static tables baked into the definitions):
two calls on identical inputs give structurally identical output. -/
theorem decode_transaction_deterministic (tracked tracked2 : List Nat)
    (t t2 : EvmTransaction) (r r2 : EvmTxReceipt) (lg lg2 : EvmTxReceiptLog)
    (evs evs2 : List HistoryBaseEntry)
    (h1 : tracked = tracked2) (h2 : t = t2) (h3 : r = r2) (h4 : lg = lg2)
    (h5 : evs = evs2) :
    decode_transaction tracked t r = decode_transaction tracked2 t2 r2 ∧
    decode_illuvium_v1_events lg t evs = decode_illuvium_v1_events lg2 t2 evs2 := by
  subst h1
  subst h2
  subst h3
  subst h4
  subst h5
  exact ⟨rfl, rfl⟩

/-- Witness for C5 at the concrete ILV-claim fixture. -/
theorem decode_transaction_deterministic_witness :
    decode_transaction testTracked TEST_TRANSACTION ilvClaimReceipt
      = decode_transaction testTracked TEST_TRANSACTION ilvClaimReceipt ∧
    decode_illuvium_v1_events ilvClaimLog TEST_TRANSACTION []
      = decode_illuvium_v1_events ilvClaimLog TEST_TRANSACTION [] :=
  decode_transaction_deterministic testTracked testTracked TEST_TRANSACTION TEST_TRANSACTION
    ilvClaimReceipt ilvClaimReceipt ilvClaimLog ilvClaimLog [] [] rfl rfl rfl rfl rfl

/-- C7: the normalized amount of a raw unsigned integer R at decimals d in
[0, 18] is the exact rational R / 10^d — re-multiplying by 10^d recovers R
exactly, with no floating-point drift — and normalization fails with
InvalidDecimalsError exactly when decimals is negative. -/
theorem normalize_amount_exact (R : ℕ) (d : ℤ) :
    (0 ≤ d → d ≤ 18 →
      ∃ q : ℚ, normalizeAmount R d = Except.ok q ∧ q * 10 ^ d.toNat = (R : ℚ)) ∧
    (d < 0 →
      normalizeAmount R d = Except.error InvalidDecimalsError.invalidDecimals) := by
  constructor
  · intro h0 _
    refine ⟨(R : ℚ) / 10 ^ d.toNat, ?_, ?_⟩
    · rw [normalizeAmount, if_neg (not_lt.mpr h0)]
    · rw [div_mul_cancel₀]
      positivity
  · intro hneg
    rw [normalizeAmount, if_pos hneg]

/-- Witness for C7 at R = 220780418354712986, d = 18. -/
theorem normalize_amount_exact_witness :
    ∃ q : ℚ, normalizeAmount 220780418354712986 18 = Except.ok q
      ∧ q * 10 ^ (18 : ℤ).toNat = ((220780418354712986 : ℕ) : ℚ) :=
  (normalize_amount_exact 220780418354712986 18).1 (by decide) (by decide)

/-- C3 counterexample: a log carrying the UNSTAKING signature (not the
staking one) reclassifies an already-decoded generic ILV SPEND event of the
user into a stake (STAKING/DEPOSIT_ASSET), because python operator
precedence makes the asset = ILV disjunct match independently of the
signature conjunct. -/
theorem ilv_spend_restaked_by_unstake_signature :
    unstakeLogCex.topics.getD 0 0 ≠ ILV_CORE_POOL_V1_STAKING ∧
    ((decode_illuvium_v1_events unstakeLogCex TEST_TRANSACTION [ilvSpendEventCex]).2.map
        (fun e => (e.event_type, e.event_subtype, e.counterparty)))
      = [(HistoryEventType.STAKING, HistoryEventSubType.DEPOSIT_ASSET,
          some (CounterpartyVal.tag CPT_ILLUVIUM))] := by
  exact ⟨by decide, rfl⟩

/-- C3 as amended: in-place overwriting is guarded only by the written
boolean tests, in which python precedence binds the asset = SLP conjunct to
the signature test while asset = ILV matches unconditionally; consequently
an already-decoded event whose asset is ILV, whose location_label is the
decoded actor address and whose event_type is the generic SPEND is
reclassified to a stake (STAKING/DEPOSIT_ASSET, counterparty CPT_ILLUVIUM)
by a log carrying any of the three known signatures — staking, unstaking or
claim — not only by the staking signature, and the rewritten event is what
the decode call leaves in events_so_far. -/
theorem reclassify_stake_condition (lg : EvmTxReceiptLog) (t : EvmTransaction)
    (evs : List HistoryBaseEntry) (e : HistoryBaseEntry)
    (hsig : lg.topics.getD 0 0 = ILV_CORE_POOL_V1_STAKING ∨
            lg.topics.getD 0 0 = ILV_CORE_POOL_V1_UNSTAKING ∨
            lg.topics.getD 0 0 = ILV_CORE_POOL_V1_CLAIM)
    (hmem : e ∈ evs) (hasset : e.asset = Asset.ILV)
    (hloc : e.location_label = some (hex_or_bytes_to_address (lg.topics.getD 1 0)))
    (htype : e.event_type = HistoryEventType.SPEND) :
    (reclassifyEvent lg e).event_type = HistoryEventType.STAKING ∧
    (reclassifyEvent lg e).event_subtype = HistoryEventSubType.DEPOSIT_ASSET ∧
    (reclassifyEvent lg e).counterparty = some (CounterpartyVal.tag CPT_ILLUVIUM) ∧
    reclassifyEvent lg e ∈ (decode_illuvium_v1_events lg t evs).2 := by
  have hstake : stakeReclassify lg e
      = { e with
          event_type := HistoryEventType.STAKING
          event_subtype := HistoryEventSubType.DEPOSIT_ASSET
          counterparty := some (CounterpartyVal.tag CPT_ILLUVIUM)
          notes := Notes.stakeNote e.balance.amount e.asset.symbol_or_name
            (poolname_for_counterparty e.counterparty)
          extra_data := some (ExtraData.staked e.balance.amount e.asset.symbol_or_name) } := by
    unfold stakeReclassify
    rw [if_pos (Or.inr hasset), if_pos ⟨hloc, htype⟩]
  have hrec : reclassifyEvent lg e = stakeReclassify lg e := by
    unfold reclassifyEvent
    rw [hstake]
    rw [show unstakeReclassify lg
        { e with
          event_type := HistoryEventType.STAKING
          event_subtype := HistoryEventSubType.DEPOSIT_ASSET
          counterparty := some (CounterpartyVal.tag CPT_ILLUVIUM)
          notes := Notes.stakeNote e.balance.amount e.asset.symbol_or_name
            (poolname_for_counterparty e.counterparty)
          extra_data := some (ExtraData.staked e.balance.amount e.asset.symbol_or_name) }
        = { e with
          event_type := HistoryEventType.STAKING
          event_subtype := HistoryEventSubType.DEPOSIT_ASSET
          counterparty := some (CounterpartyVal.tag CPT_ILLUVIUM)
          notes := Notes.stakeNote e.balance.amount e.asset.symbol_or_name
            (poolname_for_counterparty e.counterparty)
          extra_data := some (ExtraData.staked e.balance.amount e.asset.symbol_or_name) }
      from by
        unfold unstakeReclassify
        split
        · rw [if_neg]
          simp
        · rfl]
    rw [show claimReclassify lg
        { e with
          event_type := HistoryEventType.STAKING
          event_subtype := HistoryEventSubType.DEPOSIT_ASSET
          counterparty := some (CounterpartyVal.tag CPT_ILLUVIUM)
          notes := Notes.stakeNote e.balance.amount e.asset.symbol_or_name
            (poolname_for_counterparty e.counterparty)
          extra_data := some (ExtraData.staked e.balance.amount e.asset.symbol_or_name) }
        = { e with
          event_type := HistoryEventType.STAKING
          event_subtype := HistoryEventSubType.DEPOSIT_ASSET
          counterparty := some (CounterpartyVal.tag CPT_ILLUVIUM)
          notes := Notes.stakeNote e.balance.amount e.asset.symbol_or_name
            (poolname_for_counterparty e.counterparty)
          extra_data := some (ExtraData.staked e.balance.amount e.asset.symbol_or_name) }
      from by
        unfold claimReclassify
        rw [if_neg]
        simp [hasset]]
  refine ⟨by rw [hrec, hstake], by rw [hrec, hstake], by rw [hrec, hstake], ?_⟩
  refine mem_decode_output lg t evs _ ?_ (List.mem_map_of_mem _ hmem)
  rcases hsig with h | h | h
  · rw [h]
    exact List.mem_cons_self _ _
  · rw [h]
    exact List.mem_cons_of_mem _ (List.mem_cons_self _ _)
  · rw [h]
    exact List.mem_cons_of_mem _ (List.mem_cons_of_mem _ (List.mem_cons_self _ _))

/-- Witness for the amended C3 at the concrete unstaking-signature log and
the generic ILV SPEND event. -/
theorem reclassify_stake_condition_witness :
    (reclassifyEvent unstakeLogCex ilvSpendEventCex).event_type = HistoryEventType.STAKING ∧
    (reclassifyEvent unstakeLogCex ilvSpendEventCex).event_subtype
      = HistoryEventSubType.DEPOSIT_ASSET ∧
    (reclassifyEvent unstakeLogCex ilvSpendEventCex).counterparty
      = some (CounterpartyVal.tag CPT_ILLUVIUM) ∧
    reclassifyEvent unstakeLogCex ilvSpendEventCex
      ∈ (decode_illuvium_v1_events unstakeLogCex TEST_TRANSACTION [ilvSpendEventCex]).2 :=
  reclassify_stake_condition unstakeLogCex TEST_TRANSACTION [ilvSpendEventCex]
    ilvSpendEventCex (Or.inr (Or.inl rfl)) (List.mem_cons_self _ _) rfl rfl rfl

/-- C4 counterexample: a claim-signature log whose flag word holds 2 — a
value outside the documented domain set of 0 and 1 — is not treated as
malformed: the decode call silently takes the claim-ILV-and-stake branch,
appending two events to an initially empty events list instead of appending
none. -/
theorem flag_two_claim_appends_events :
    hex_or_bytes_to_int (flag2ClaimLog.data.take 32) = 2 ∧
    hex_or_bytes_to_int (flag2ClaimLog.data.take 32) ∉ ([0, 1] : List Nat) ∧
    ((decode_illuvium_v1_events flag2ClaimLog TEST_TRANSACTION []).2.map
        (fun e => (e.event_type, e.event_subtype)))
      = [(HistoryEventType.RECEIVE, HistoryEventSubType.REWARD),
         (HistoryEventType.STAKING, HistoryEventSubType.DEPOSIT_ASSET)] := by
  exact ⟨by decide, by decide, rfl⟩

/-- C4 as amended: for a claim-signature log the flag word is compared only
against the exact value 1 — flag 1 short-circuits with (none, []) and no
synthesis, while every other flag value, in-domain 0 and out-of-domain
values alike, silently takes the claim-ILV-and-stake branch and appends the
two synthesized events; there is no malformed-log treatment of values
outside the documented domain of 0 and 1. -/
theorem claim_flag_branching (lg : EvmTxReceiptLog) (t : EvmTransaction)
    (evs : List HistoryBaseEntry)
    (hsig : lg.topics.getD 0 0 = ILV_CORE_POOL_V1_CLAIM) :
    (hex_or_bytes_to_int (lg.data.take 32) = 1 →
      (decode_illuvium_v1_events lg t evs).2 = evs.map (reclassifyEvent lg)) ∧
    (hex_or_bytes_to_int (lg.data.take 32) ≠ 1 →
      (decode_illuvium_v1_events lg t evs).2
        = evs.map (reclassifyEvent lg)
          ++ [claim_reward_event lg t, claim_stake_event lg t]) := by
  have hmem : lg.topics.getD 0 0 ∈ illuviumKnownSignatures := by
    rw [hsig]
    exact List.mem_cons_of_mem _ (List.mem_cons_of_mem _ (List.mem_cons_self _ _))
  constructor
  · intro hflag
    unfold decode_illuvium_v1_events
    rw [if_neg (not_not_intro hmem), if_pos hsig, if_pos hflag]
  · intro hflag
    unfold decode_illuvium_v1_events
    rw [if_neg (not_not_intro hmem), if_pos hsig, if_neg hflag]

/-- Witness for the amended C4 at the concrete flag-2 claim log. -/
theorem claim_flag_branching_witness :
    (decode_illuvium_v1_events flag2ClaimLog TEST_TRANSACTION []).2
      = ([] : List HistoryBaseEntry).map (reclassifyEvent flag2ClaimLog)
        ++ [claim_reward_event flag2ClaimLog TEST_TRANSACTION,
            claim_stake_event flag2ClaimLog TEST_TRANSACTION] :=
  (claim_flag_branching flag2ClaimLog TEST_TRANSACTION [] rfl).2 (by decide)

/-- C9: the protocol tag set the module declares is exactly the singleton
CPT_ILLUVIUM, and every counterparty value the decode call writes — in-place
reclassifications and synthesized events alike — is that tag: every event
left in events_so_far is either one of the untouched input events or carries
counterparty CPT_ILLUVIUM. -/
theorem counterparty_tag_set (lg : EvmTxReceiptLog) (t : EvmTransaction)
    (evs : List HistoryBaseEntry) (e : HistoryBaseEntry)
    (hmem : e ∈ (decode_illuvium_v1_events lg t evs).2) :
    counterparties = [CPT_ILLUVIUM] ∧
    (e ∈ evs ∨ e.counterparty = some (CounterpartyVal.tag CPT_ILLUVIUM)) := by
  refine ⟨rfl, ?_⟩
  have hmapped : ∀ x ∈ evs.map (reclassifyEvent lg),
      x ∈ evs ∨ x.counterparty = some (CounterpartyVal.tag CPT_ILLUVIUM) := by
    intro x hx
    rcases List.mem_map.mp hx with ⟨a, ha, rfl⟩
    rcases reclassify_counterparty lg a with h | h
    · exact Or.inl (by rw [h]; exact ha)
    · exact Or.inr h
  unfold decode_illuvium_v1_events at hmem
  split at hmem
  · exact Or.inl hmem
  · split at hmem
    · split at hmem
      · exact hmapped e hmem
      · rcases List.mem_append.mp hmem with hm | hm
        · exact hmapped e hm
        · simp only [List.mem_cons, List.not_mem_nil, or_false] at hm
          rcases hm with rfl | rfl
          · exact Or.inr rfl
          · exact Or.inr rfl
    · exact hmapped e hmem

/-- Witness for C9 at the concrete flag-0 claim log applied to an empty
events list: the synthesized reward event carries the CPT_ILLUVIUM tag. -/
theorem counterparty_tag_set_witness :
    counterparties = [CPT_ILLUVIUM] ∧
    (claim_reward_event ilvClaimLog TEST_TRANSACTION ∈ ([] : List HistoryBaseEntry) ∨
     (claim_reward_event ilvClaimLog TEST_TRANSACTION).counterparty
       = some (CounterpartyVal.tag CPT_ILLUVIUM)) :=
  counterparty_tag_set ilvClaimLog TEST_TRANSACTION []
    (claim_reward_event ilvClaimLog TEST_TRANSACTION) (List.mem_cons_self _ _)

/-- C6: for every decoded transaction the network-fee event — created before
any protocol decoding runs, as step one of the orchestrator — is the unique
event with the FEE subtype, comes first with sequence_index 0, is a SPEND of
the chain's native gas asset ETH, and its amount is exactly
gas_used * gas_price normalized to the native asset's 18 decimals. -/
theorem fee_event_invariant (tracked : List Nat) (t : EvmTransaction)
    (r : EvmTxReceipt) :
    (decode_transaction tracked t r).head? = some (mkFeeEvent t) ∧
    (decode_transaction tracked t r).filter
        (fun e => decide (e.event_subtype = HistoryEventSubType.FEE))
      = [mkFeeEvent t] ∧
    (mkFeeEvent t).sequence_index = 0 ∧
    (mkFeeEvent t).event_type = HistoryEventType.SPEND ∧
    (mkFeeEvent t).event_subtype = HistoryEventSubType.FEE ∧
    (mkFeeEvent t).asset = Asset.ETH ∧
    (mkFeeEvent t).balance.amount = ((t.gas_used * t.gas_price : ℕ) : ℚ) / 10 ^ 18 := by
  obtain ⟨rest, heq, hrest⟩ :=
    foldl_feeShape tracked t r.logs [mkFeeEvent t] ⟨[], rfl, by simp⟩
  have hdc : decode_transaction tracked t r
      = sortBySequenceIndex (mkFeeEvent t :: rest) := by
    unfold decode_transaction
    rw [heq]
  have hsort : sortBySequenceIndex (mkFeeEvent t :: rest)
      = mkFeeEvent t :: sortBySequenceIndex rest :=
    insertBySeq_zero (mkFeeEvent t) (sortBySequenceIndex rest) rfl
  have hnofee : (sortBySequenceIndex rest).filter
      (fun e => decide (e.event_subtype = HistoryEventSubType.FEE)) = [] := by
    refine List.filter_eq_nil_iff.mpr ?_
    intro a ha
    have hamem : a ∈ rest := (sortBySequenceIndex_perm rest).mem_iff.mp ha
    simpa using (hrest a hamem).1
  refine ⟨?_, ?_, rfl, rfl, rfl, rfl, rfl⟩
  · rw [hdc, hsort]
    rfl
  · rw [hdc, hsort, List.filter_cons_of_pos rfl, hnofee]
